import Mathlib

/-!
Verification of the 2D geometric-primitive kernel of nut_ros_lib
(vector2.h, pose_2D.h, line_2D.h).

The numeric template parameter T is modelled by the rational numbers,
so that every arithmetic step of the source is exact and decidable.
The external math primitives are modelled as follows:
* std::sqrt is modelled by ratSqrt, a computable function that agrees
  with the true square root whenever the argument is the square of a
  rational (all concrete test values below are of this form);
* std::cos / std::sin of an angle are passed to rotate as the two
  precomputed values c and s, since the carrier is the rationals.
Everything else is a direct transcription of the source, statement for
statement, including the sequential in-place assignments.
-/

set_option maxRecDepth 20000

namespace NutRos

/-- Integer square root by structural recursion; isqrt n is the largest k
with k * k at most n.  It models the integer core of the square-root
primitive and evaluates by kernel reduction on concrete inputs. -/
def isqrt : Nat → Nat
  | 0 => 0
  | n + 1 =>
    let r := isqrt n
    if (r + 1) * (r + 1) ≤ n + 1 then r + 1 else r

/-- Model of std::sqrt on the rational carrier: the square root of the
numerator over the square root of the denominator.  It is exact on every
rational that is the square of a rational, which covers all concrete
inputs used in this development. -/
def ratSqrt (q : ℚ) : ℚ := (isqrt q.num.toNat : ℚ) / (isqrt q.den : ℚ)

/-- Class constant Line2D::eps = 1e-10, the tolerance for all
effectively-zero comparisons (line_2D.h line 228). -/
def eps : ℚ := 1 / 10000000000

/-- Generic::guard from nut_generic.h (shown in PID.h): the external
three-argument range clamp, returning lo if x is below lo, hi if x is
above hi, and x otherwise. -/
def Generic.guard (x lo hi : ℚ) : ℚ :=
  if x < lo then lo else if x > hi then hi else x

/-- Vector2 of T from vector2.h with T the rational numbers: the two
orthogonal components, default-constructed to zero. -/
@[ext]
structure Vector2 where
  x : ℚ := 0
  y : ℚ := 0
deriving DecidableEq

namespace Vector2

/-- Vector2::rotate(angle) from vector2.h lines 74 to 78, transcribed
assignment for assignment.  The two source statements are sequential:
x is overwritten first, and the assignment to y then reads the ALREADY
UPDATED x.  The arguments c and s stand for cos(angle) and sin(angle). -/
def rotate (v : Vector2) (c s : ℚ) : Vector2 :=
  let x1 := v.x * c - v.y * s
  let y1 := x1 * s + v.y * c
  ⟨x1, y1⟩

/-- Vector2::operator== from vector2.h: exact component-wise comparison. -/
def eqOp (v w : Vector2) : Bool :=
  decide (v.x = w.x) && decide (v.y = w.y)

/-- Vector2::lerp from vector2.h lines 213 to 220: the parameter t is
first clamped by Generic::guard(t, 0.0, 1.0), then each component is
interpolated as a + (b - a) * t. -/
def lerp (a b : Vector2) (t : ℚ) : Vector2 :=
  let t := Generic.guard t 0 1
  ⟨a.x + (b.x - a.x) * t, a.y + (b.y - a.y) * t⟩

end Vector2

/-- Pose2D of T from pose_2D.h with T the rational numbers: position
(x, y) plus orientation theta, default-constructed to (0, 0, 0). -/
@[ext]
structure Pose2D where
  x : ℚ := 0
  y : ℚ := 0
  theta : ℚ := 0
deriving DecidableEq

namespace Pose2D

/-- Pose2D::operator- (unary), pose_2D.h: negates all three fields. -/
instance : Neg Pose2D := ⟨fun p => ⟨-p.x, -p.y, -p.theta⟩⟩

/-- Pose2D::operator+, pose_2D.h: component-wise sum of all three fields. -/
instance : Add Pose2D := ⟨fun p v => ⟨p.x + v.x, p.y + v.y, p.theta + v.theta⟩⟩

/-- Pose2D::operator-, pose_2D.h: component-wise difference of all three
fields. -/
instance : Sub Pose2D := ⟨fun p v => ⟨p.x - v.x, p.y - v.y, p.theta - v.theta⟩⟩

/-- Pose2D::operator* with a scalar, pose_2D.h: scales all three fields. -/
instance : HMul Pose2D ℚ Pose2D := ⟨fun p s => ⟨p.x * s, p.y * s, p.theta * s⟩⟩

/-- Pose2D::operator/ with a scalar, pose_2D.h: divides all three fields. -/
instance : HDiv Pose2D ℚ Pose2D := ⟨fun p s => ⟨p.x / s, p.y / s, p.theta / s⟩⟩

@[simp] theorem neg_x (p : Pose2D) : (-p).x = -p.x := rfl
@[simp] theorem neg_y (p : Pose2D) : (-p).y = -p.y := rfl
@[simp] theorem neg_theta (p : Pose2D) : (-p).theta = -p.theta := rfl
@[simp] theorem add_x (p v : Pose2D) : (p + v).x = p.x + v.x := rfl
@[simp] theorem add_y (p v : Pose2D) : (p + v).y = p.y + v.y := rfl
@[simp] theorem add_theta (p v : Pose2D) : (p + v).theta = p.theta + v.theta := rfl
@[simp] theorem sub_x (p v : Pose2D) : (p - v).x = p.x - v.x := rfl
@[simp] theorem sub_y (p v : Pose2D) : (p - v).y = p.y - v.y := rfl
@[simp] theorem sub_theta (p v : Pose2D) : (p - v).theta = p.theta - v.theta := rfl
@[simp] theorem mul_x (p : Pose2D) (s : ℚ) : (p * s).x = p.x * s := rfl
@[simp] theorem mul_y (p : Pose2D) (s : ℚ) : (p * s).y = p.y * s := rfl
@[simp] theorem mul_theta (p : Pose2D) (s : ℚ) : (p * s).theta = p.theta * s := rfl
@[simp] theorem div_x (p : Pose2D) (s : ℚ) : (p / s).x = p.x / s := rfl
@[simp] theorem div_y (p : Pose2D) (s : ℚ) : (p / s).y = p.y / s := rfl
@[simp] theorem div_theta (p : Pose2D) (s : ℚ) : (p / s).theta = p.theta / s := rfl

/-- Pose2D::operator+= , pose_2D.h: in-place component-wise sum, modelled
as a function returning the updated receiver. -/
def addAssign (p v : Pose2D) : Pose2D := ⟨p.x + v.x, p.y + v.y, p.theta + v.theta⟩

/-- Pose2D::operator-= , pose_2D.h: in-place component-wise difference. -/
def subAssign (p v : Pose2D) : Pose2D := ⟨p.x - v.x, p.y - v.y, p.theta - v.theta⟩

/-- Pose2D::operator*= , pose_2D.h: in-place scalar multiplication. -/
def mulAssign (p : Pose2D) (s : ℚ) : Pose2D := ⟨p.x * s, p.y * s, p.theta * s⟩

/-- Pose2D::operator/= , pose_2D.h: in-place scalar division. -/
def divAssign (p : Pose2D) (s : ℚ) : Pose2D := ⟨p.x / s, p.y / s, p.theta / s⟩

/-- Pose2D::operator== from pose_2D.h line 1013, transcribed verbatim:
the source text is (x == v.x) && (y == v.y) && (theta == v.y) — the
third comparison reads the y field of the other operand, not its theta. -/
def eqOp (p v : Pose2D) : Bool :=
  decide (p.x = v.x) && decide (p.y = v.y) && decide (p.theta = v.y)

/-- Pose2D::operator!= from pose_2D.h line 1021: the boolean negation of
the same three comparisons, with the same theta-against-y defect. -/
def neOp (p v : Pose2D) : Bool :=
  !(decide (p.x = v.x) && decide (p.y = v.y) && decide (p.theta = v.y))

/-- Pose2D::equals from pose_2D.h: delegates to operator==. -/
def equals (p v : Pose2D) : Bool := eqOp p v

/-- Pose2D::rotate(angle) from pose_2D.h lines 638 to 644: both
components are snapshotted into tmp_x and tmp_y before either field is
written, so the update reads only original values.  The arguments c and
s stand for cos(angle) and sin(angle). -/
def rotate (p : Pose2D) (c s : ℚ) : Pose2D :=
  let tmp_x := p.x
  let tmp_y := p.y
  ⟨tmp_x * c - tmp_y * s, tmp_x * s + tmp_y * c, p.theta⟩

/-- Pose2D::sqrMagnitude, pose_2D.h: x * x + y * y (theta never
participates). -/
def sqrMagnitude (p : Pose2D) : ℚ := p.x * p.x + p.y * p.y

/-- Pose2D::magnitude, pose_2D.h: square root of sqrMagnitude. -/
def magnitude (p : Pose2D) : ℚ := ratSqrt p.sqrMagnitude

/-- Pose2D::getDot, pose_2D.h: dot product of the position components. -/
def getDot (a b : Pose2D) : ℚ := a.x * b.x + a.y * b.y

/-- Pose2D::getCross, pose_2D.h: scalar cross product of the position
components. -/
def getCross (a b : Pose2D) : ℚ := a.x * b.y - a.y * b.x

/-- Pose2D::getDistance, pose_2D.h: the magnitude of b - a. -/
def getDistance (a b : Pose2D) : ℚ := (b - a).magnitude

/-- Pose2D::lerp from pose_2D.h lines 882 to 890: the parameter t is
first clamped by Generic::guard(t, 0.0, 1.0), then x, y AND theta are
interpolated as a + (b - a) * t. -/
def lerp (a b : Pose2D) (t : ℚ) : Pose2D :=
  let t := Generic.guard t 0 1
  ⟨a.x + (b.x - a.x) * t, a.y + (b.y - a.y) * t,
   a.theta + (b.theta - a.theta) * t⟩

/-- Pose2D::getMidpoint, pose_2D.h: lerp at one half. -/
def getMidpoint (a b : Pose2D) : Pose2D := lerp a b (1 / 2)

end Pose2D

/-- Line2D of T from line_2D.h: a directed line or segment given by two
Pose2D endpoints. -/
@[ext]
structure Line2D where
  start : Pose2D
  «end» : Pose2D
deriving DecidableEq

namespace Line2D

/-- Line2D::getLength, line_2D.h: the distance between the endpoints. -/
def getLength (l : Line2D) : ℚ := Pose2D.getDistance l.start l.«end»

/-- Line2D::isPointOnLine from line_2D.h lines 364 to 367: the point p
lies on the infinite line iff the cross product of (end - start) and
(p - start) is smaller than eps in absolute value. -/
def isPointOnLine (l : Line2D) (p : Pose2D) : Bool :=
  decide (|Pose2D.getCross (l.«end» - l.start) (p - l.start)| < eps)

/-- Line2D::isPointOnLineWithinRange from line_2D.h lines 374 to 418,
transcribed statement for statement: first the collinearity test, then a
result flag that each of the two axis checks may reset to false.  On an
axis whose extent is below eps the check is an epsilon-equality against
the max coordinate; otherwise it is the strict open-interval test. -/
def isPointOnLineWithinRange (l : Line2D) (p : Pose2D) : Bool :=
  if l.isPointOnLine p then
    let x_min := min l.start.x l.«end».x
    let x_max := max l.start.x l.«end».x
    let y_min := min l.start.y l.«end».y
    let y_max := max l.start.y l.«end».y
    let result := true
    let result :=
      if |x_max - x_min| < eps then
        if |x_max - p.x| > eps then false else result
      else
        if ¬(x_min < p.x ∧ p.x < x_max) then false else result
    let result :=
      if |y_max - y_min| < eps then
        if |y_max - p.y| > eps then false else result
      else
        if ¬(y_min < p.y ∧ p.y < y_max) then false else result
    result
  else
    false

/-- Line2D::getIntersection from line_2D.h lines 426 to 441: if the
cross product of the two direction vectors exceeds eps in absolute
value the lines intersect and the point is solved parametrically;
otherwise the flag is false and the point is the origin pose. -/
def getIntersection (line1 line2 : Line2D) : Bool × Pose2D :=
  if |Pose2D.getCross (line1.«end» - line1.start) (line2.«end» - line2.start)| > eps then
    let a := line1.«end» - line1.start
    let b := line2.«end» - line2.start
    (true, line1.start +
      a * Pose2D.getCross b (line2.start - line1.start) / Pose2D.getCross b a)
  else
    (false, (⟨0, 0, 0⟩ : Pose2D))

/-- Line2D::getIntersectionWithinRange from line_2D.h lines 449 to 466:
delegates to getIntersection; when that reports an intersection the flag
is additionally required to pass isPointOnLineWithinRange against both
segments; the point is passed through unchanged in both branches. -/
def getIntersectionWithinRange (line1 line2 : Line2D) : Bool × Pose2D :=
  let r := getIntersection line1 line2
  if r.1 then
    (line1.isPointOnLineWithinRange r.2 && line2.isPointOnLineWithinRange r.2, r.2)
  else
    (false, r.2)

/-- Line2D::getDistanceFromPointToLine from line_2D.h lines 474 to 494:
the implicit-form coefficients a, b, c are built from the slope when the
line is not vertical and as (1, 0, -start.x) otherwise, and the distance
is the standard implicit-line formula.  The source contains an
unconditional std::cout debug statement printing a, b and c; it is
modelled by the second component of the result, the list of the three
values written to standard output. -/
def getDistanceFromPointToLine (pose : Pose2D) (line : Line2D) : ℚ × List ℚ :=
  let abc : ℚ × ℚ × ℚ :=
    if |line.start.x - line.«end».x| > eps then
      ((line.«end».y - line.start.y) / (line.«end».x - line.start.x),
       -1,
       (-(line.«end».y - line.start.y)) / (line.«end».x - line.start.x) * line.start.x
         + line.start.y)
    else
      (1, 0, -line.start.x)
  let a := abc.1
  let b := abc.2.1
  let c := abc.2.2
  (|a * pose.x + b * pose.y + c| / ratSqrt (a * a + b * b), [a, b, c])

/-- Line2D::getDistanceFromPointToLineWithinRange from line_2D.h lines
502 to 538: the same implicit-form coefficients, then the foot h of the
perpendicular from the point onto the infinite line; if h passes
isPointOnLineWithinRange the perpendicular distance is returned,
otherwise the distance to the nearer endpoint. -/
def getDistanceFromPointToLineWithinRange (pose : Pose2D) (line : Line2D) : ℚ :=
  let abc : ℚ × ℚ × ℚ :=
    if |line.start.x - line.«end».x| > eps then
      ((line.«end».y - line.start.y) / (line.«end».x - line.start.x),
       -1,
       (-(line.«end».y - line.start.y)) / (line.«end».x - line.start.x) * line.start.x
         + line.start.y)
    else
      (1, 0, -line.start.x)
  let a := abc.1
  let b := abc.2.1
  let c := abc.2.2
  let p := pose.x
  let q := pose.y
  let h : Pose2D :=
    ⟨(p * (a * a + b * b) - a * (a * p + b * q + c)) / (a * a + b * b),
     (q * (a * a + b * b) - b * (a * p + b * q + c)) / (a * a + b * b), 0⟩
  if line.isPointOnLineWithinRange h then
    |a * pose.x + b * pose.y + c| / ratSqrt (a * a + b * b)
  else
    min (Pose2D.getDistance pose line.start) (Pose2D.getDistance pose line.«end»)

end Line2D

theorem isqrt_one : isqrt 1 = 1 := by decide

theorem isqrt_25 : isqrt 25 = 5 := by decide

theorem isqrt_100 : isqrt 100 = 10 := by decide

theorem ratSqrt_one : ratSqrt 1 = 1 := by
  norm_num [ratSqrt, isqrt_one]

theorem ratSqrt_25 : ratSqrt 25 = 5 := by
  have h1 : Int.toNat (25 : ℤ) = 25 := rfl
  norm_num [ratSqrt, h1, isqrt_25, isqrt_one]

theorem ratSqrt_100 : ratSqrt 100 = 10 := by
  have h1 : Int.toNat (100 : ℤ) = 100 := rfl
  norm_num [ratSqrt, h1, isqrt_100, isqrt_one]

/-- Characterization of getIntersection used throughout: the false flag
with the origin pose appears exactly when the direction cross product is
at most eps in absolute value, and otherwise the point is the parametric
solution written with a scalar parameter. -/
theorem getIntersection_eq (line1 line2 : Line2D) :
    Line2D.getIntersection line1 line2 =
      if |Pose2D.getCross (line1.«end» - line1.start) (line2.«end» - line2.start)| ≤ eps then
        (false, (⟨0, 0, 0⟩ : Pose2D))
      else
        (true, line1.start + (line1.«end» - line1.start) *
          (Pose2D.getCross (line2.«end» - line2.start) (line2.start - line1.start) /
           Pose2D.getCross (line2.«end» - line2.start) (line1.«end» - line1.start))) := by
  unfold Line2D.getIntersection
  by_cases h : |Pose2D.getCross (line1.«end» - line1.start) (line2.«end» - line2.start)| > eps
  · rw [if_pos h, if_neg (not_le.mpr h)]
    refine Prod.ext rfl ?_
    ext <;> simp [mul_div_assoc]
  · rw [if_neg h, if_pos (not_lt.mp h)]

/-- C1: the claim states that Pose2D equality compares x, y and theta
pairwise, so in particular every pose compares equal to the pose rebuilt
from its own three fields.  The source operator== (pose_2D.h line 1013)
compares theta against the y field of the other operand, so the pose
(0, 0, 1) rebuilt from its own fields compares UNEQUAL to itself, and
operator!= reports the negation; the comparison only succeeds when
theta happens to equal y, as for (0, 1, 1). -/
theorem pose2d_eq_misreads_theta :
    Pose2D.eqOp ⟨0, 0, 1⟩ ⟨0, 0, 1⟩ = false ∧
    Pose2D.neOp ⟨0, 0, 1⟩ ⟨0, 0, 1⟩ = true ∧
    Pose2D.equals ⟨0, 0, 1⟩ ⟨0, 0, 1⟩ = false ∧
    Pose2D.eqOp ⟨0, 1, 1⟩ ⟨0, 1, 1⟩ = true := by
  refine ⟨?_, ?_, ?_, ?_⟩ <;>
    norm_num [Pose2D.eqOp, Pose2D.neOp, Pose2D.equals]

/-- C2: the claim states that the mutating rotate computes both new
components from the ORIGINAL values, for Vector2::rotate and for
Pose2D::rotate alike.  At the quarter turn (cos = 0, sin = 1) the vector
(1, 0) must become (0, 1); Pose2D::rotate, which snapshots both fields
first, returns exactly that, while Vector2::rotate (vector2.h lines 74
to 78) reads the already overwritten x in its second assignment and
returns (0, 0) instead. -/
theorem vector2_rotate_reads_overwritten_x :
    Vector2.rotate ⟨1, 0⟩ 0 1 = ⟨0, 0⟩ ∧
    Pose2D.rotate ⟨1, 0, 0⟩ 0 1 = ⟨0, 1, 0⟩ ∧
    Vector2.rotate ⟨1, 0⟩ 0 1 ≠ ⟨0, 1⟩ := by
  refine ⟨?_, ?_, ?_⟩ <;>
    norm_num [Vector2.rotate, Pose2D.rotate, Vector2.mk.injEq, Pose2D.mk.injEq]

/-- C3: getIntersection returns the false flag with the origin pose
exactly when the cross product of the direction vectors is at most eps
in absolute value, and otherwise returns the true flag with the
parametric point line1.start plus a scaled by the quotient of the two
cross products; the function is total, so neither case raises an
exception.  In particular the parallel horizontal segments (0,0)-(4,0)
and (0,1)-(4,1) yield the false flag. -/
theorem getIntersection_parallel_spec :
    (∀ line1 line2 : Line2D,
      Line2D.getIntersection line1 line2 =
        if |Pose2D.getCross (line1.«end» - line1.start) (line2.«end» - line2.start)| ≤ eps
        then (false, (⟨0, 0, 0⟩ : Pose2D))
        else
          (true, line1.start + (line1.«end» - line1.start) *
            (Pose2D.getCross (line2.«end» - line2.start) (line2.start - line1.start) /
             Pose2D.getCross (line2.«end» - line2.start) (line1.«end» - line1.start)))) ∧
    Line2D.getIntersection ⟨⟨0, 0, 0⟩, ⟨4, 0, 0⟩⟩ ⟨⟨0, 1, 0⟩, ⟨4, 1, 0⟩⟩ =
      (false, ⟨0, 0, 0⟩) := by
  refine ⟨getIntersection_eq, ?_⟩
  rw [getIntersection_eq]
  norm_num [Pose2D.getCross, eps]

/-- C9: the claim states that every geometric query performs no I/O and
is deterministic.  Determinism holds (the embedding is a function), but
getDistanceFromPointToLine (line_2D.h line 490) contains an
unconditional std::cout statement printing the three implicit-line
coefficients; modelled as the emitted-value list, the output trace has
length three on EVERY input, and at the point (0,0,0) against the
segment (0,0)-(1,1) the values 1, -1, 0 are written. -/
theorem getDistanceFromPointToLine_emits_output :
    (∀ (pose : Pose2D) (line : Line2D),
      (Line2D.getDistanceFromPointToLine pose line).2.length = 3) ∧
    (Line2D.getDistanceFromPointToLine ⟨0, 0, 0⟩ ⟨⟨0, 0, 0⟩, ⟨1, 1, 0⟩⟩).2 =
      [1, -1, 0] ∧
    (Line2D.getDistanceFromPointToLine ⟨0, 0, 0⟩ ⟨⟨0, 0, 0⟩, ⟨1, 1, 0⟩⟩).2 ≠ [] := by
  refine ⟨fun pose line => rfl, ?_, ?_⟩
  · norm_num [Line2D.getDistanceFromPointToLine, eps]
  · norm_num [Line2D.getDistanceFromPointToLine, eps]
    exact List.cons_ne_nil _ _

/-- C7: getDistanceFromPointToLine returns the implicit-line distance
with coefficients a = slope, b = -1, c = -slope * start.x + start.y when
the segment is not vertical (the x extent exceeds eps) and with
coefficients (1, 0, -start.x) otherwise; the slope denominator is
nonzero whenever the non-vertical branch is taken, so the division by
zero of an undefined slope never occurs; and the vertical line
(3,0)-(3,5) against the point (7,2) yields 4. -/
theorem getDistanceFromPointToLine_spec :
    (∀ (pose : Pose2D) (line : Line2D),
      (Line2D.getDistanceFromPointToLine pose line).1 =
        if |line.start.x - line.«end».x| > eps then
          let slope := (line.«end».y - line.start.y) / (line.«end».x - line.start.x)
          |slope * pose.x + (-1) * pose.y + (-slope * line.start.x + line.start.y)| /
            ratSqrt (slope ^ 2 + (-1 : ℚ) ^ 2)
        else
          |1 * pose.x + 0 * pose.y + (-line.start.x)| / ratSqrt ((1 : ℚ) ^ 2 + 0 ^ 2)) ∧
    (∀ line : Line2D, |line.start.x - line.«end».x| > eps →
      line.«end».x - line.start.x ≠ 0) ∧
    (Line2D.getDistanceFromPointToLine ⟨7, 2, 0⟩ ⟨⟨3, 0, 0⟩, ⟨3, 5, 0⟩⟩).1 = 4 := by
  refine ⟨?_, ?_, ?_⟩
  · intro pose line
    unfold Line2D.getDistanceFromPointToLine
    by_cases h : |line.start.x - line.«end».x| > eps
    · simp only [if_pos h, pow_two, neg_div, neg_mul]
    · simp only [if_neg h, pow_two]
  · intro line h heq
    rw [show line.start.x - line.«end».x = -(line.«end».x - line.start.x) by ring,
      heq] at h
    norm_num [eps] at h
  · norm_num [Line2D.getDistanceFromPointToLine, eps, ratSqrt_one]

/-- Witness for the nonzero-denominator hypothesis of C7: the segment
from (0,0) to (1,1) is not vertical and its slope denominator is 1. -/
theorem getDistanceFromPointToLine_spec_witness :
    (⟨⟨0, 0, 0⟩, ⟨1, 1, 0⟩⟩ : Line2D).«end».x -
      (⟨⟨0, 0, 0⟩, ⟨1, 1, 0⟩⟩ : Line2D).start.x ≠ 0 :=
  getDistanceFromPointToLine_spec.2.1 ⟨⟨0, 0, 0⟩, ⟨1, 1, 0⟩⟩ (by norm_num [eps])

/-- C8: Vector2::lerp and Pose2D::lerp first clamp the parameter t to
the unit interval through Generic::guard and then interpolate every
field (x, y, and for Pose2D also theta) as a + (b - a) * t; hence lerp
at 0 returns the first endpoint, lerp at 1 the second, any t below 0 or
above 1 collapses to the corresponding endpoint, and in particular
lerp((0,0),(10,0),2) = (10,0): interpolation never extrapolates. -/
theorem lerp_clamps_spec :
    (∀ (a b : Vector2) (t : ℚ),
      Vector2.lerp a b t =
        ⟨a.x + (b.x - a.x) * Generic.guard t 0 1,
         a.y + (b.y - a.y) * Generic.guard t 0 1⟩) ∧
    (∀ (a b : Pose2D) (t : ℚ),
      Pose2D.lerp a b t =
        ⟨a.x + (b.x - a.x) * Generic.guard t 0 1,
         a.y + (b.y - a.y) * Generic.guard t 0 1,
         a.theta + (b.theta - a.theta) * Generic.guard t 0 1⟩) ∧
    (∀ a b : Vector2, Vector2.lerp a b 0 = a) ∧
    (∀ a b : Vector2, Vector2.lerp a b 1 = b) ∧
    (∀ a b : Pose2D, Pose2D.lerp a b 0 = a) ∧
    (∀ a b : Pose2D, Pose2D.lerp a b 1 = b) ∧
    (∀ (a b : Vector2) (t : ℚ), t < 0 → Vector2.lerp a b t = a) ∧
    (∀ (a b : Vector2) (t : ℚ), 1 < t → Vector2.lerp a b t = b) ∧
    (∀ (a b : Pose2D) (t : ℚ), t < 0 → Pose2D.lerp a b t = a) ∧
    (∀ (a b : Pose2D) (t : ℚ), 1 < t → Pose2D.lerp a b t = b) ∧
    Vector2.lerp ⟨0, 0⟩ ⟨10, 0⟩ 2 = ⟨10, 0⟩ := by
  have g0 : ∀ t : ℚ, t < 0 → Generic.guard t 0 1 = 0 := fun t h => if_pos h
  have g1 : ∀ t : ℚ, 1 < t → Generic.guard t 0 1 = 1 := fun t h => by
    rw [Generic.guard, if_neg (by linarith), if_pos h]
  have gz : Generic.guard 0 0 1 = 0 := by norm_num [Generic.guard]
  have go : Generic.guard 1 0 1 = 1 := by norm_num [Generic.guard]
  refine ⟨fun a b t => rfl, fun a b t => rfl, ?_, ?_, ?_, ?_, ?_, ?_, ?_, ?_, ?_⟩
  · intro a b; ext <;> simp [Vector2.lerp, gz]
  · intro a b; ext <;> simp [Vector2.lerp, go]
  · intro a b; ext <;> simp [Pose2D.lerp, gz]
  · intro a b; ext <;> simp [Pose2D.lerp, go]
  · intro a b t h; ext <;> simp [Vector2.lerp, g0 t h]
  · intro a b t h; ext <;> simp [Vector2.lerp, g1 t h]
  · intro a b t h; ext <;> simp [Pose2D.lerp, g0 t h]
  · intro a b t h; ext <;> simp [Pose2D.lerp, g1 t h]
  · norm_num [Vector2.lerp, Generic.guard, Vector2.mk.injEq]

/-- Witness for the out-of-range hypotheses of C8: at t = -1 both lerps
return the first endpoint and at t = 2 both return the second. -/
theorem lerp_clamps_spec_witness :
    Vector2.lerp ⟨0, 0⟩ ⟨10, 0⟩ (-1) = ⟨0, 0⟩ ∧
    Vector2.lerp ⟨0, 0⟩ ⟨10, 0⟩ 2 = ⟨10, 0⟩ ∧
    Pose2D.lerp ⟨1, 2, 3⟩ ⟨4, 5, 6⟩ (-1) = ⟨1, 2, 3⟩ ∧
    Pose2D.lerp ⟨1, 2, 3⟩ ⟨4, 5, 6⟩ 2 = ⟨4, 5, 6⟩ :=
  ⟨lerp_clamps_spec.2.2.2.2.2.2.1 _ _ _ (by norm_num),
   lerp_clamps_spec.2.2.2.2.2.2.2.1 _ _ _ (by norm_num),
   lerp_clamps_spec.2.2.2.2.2.2.2.2.1 _ _ _ (by norm_num),
   lerp_clamps_spec.2.2.2.2.2.2.2.2.2.1 _ _ _ (by norm_num)⟩

/-- C10: every Pose2D component-wise arithmetic operator (negation, sum,
difference, scalar product, scalar quotient, and the compound-assignment
forms) treats theta exactly as x and y; consequently the pose returned
by getIntersection carries theta equal to line1.start.theta plus the
solved scalar parameter times (line1.end.theta - line1.start.theta). -/
theorem pose2d_theta_componentwise :
    (∀ p : Pose2D, -p = (⟨-p.x, -p.y, -p.theta⟩ : Pose2D)) ∧
    (∀ p v : Pose2D, p + v = (⟨p.x + v.x, p.y + v.y, p.theta + v.theta⟩ : Pose2D)) ∧
    (∀ p v : Pose2D, p - v = (⟨p.x - v.x, p.y - v.y, p.theta - v.theta⟩ : Pose2D)) ∧
    (∀ (p : Pose2D) (s : ℚ), p * s = (⟨p.x * s, p.y * s, p.theta * s⟩ : Pose2D)) ∧
    (∀ (p : Pose2D) (s : ℚ), p / s = (⟨p.x / s, p.y / s, p.theta / s⟩ : Pose2D)) ∧
    (∀ p v : Pose2D, Pose2D.addAssign p v = p + v) ∧
    (∀ p v : Pose2D, Pose2D.subAssign p v = p - v) ∧
    (∀ (p : Pose2D) (s : ℚ), Pose2D.mulAssign p s = p * s) ∧
    (∀ (p : Pose2D) (s : ℚ), Pose2D.divAssign p s = p / s) ∧
    (∀ line1 line2 : Line2D, (Line2D.getIntersection line1 line2).1 = true →
      (Line2D.getIntersection line1 line2).2.theta =
        line1.start.theta +
          Pose2D.getCross (line2.«end» - line2.start) (line2.start - line1.start) /
            Pose2D.getCross (line2.«end» - line2.start) (line1.«end» - line1.start) *
          (line1.«end».theta - line1.start.theta)) := by
  refine ⟨fun p => rfl, fun p v => rfl, fun p v => rfl, fun p s => rfl, fun p s => rfl,
    fun p v => rfl, fun p v => rfl, fun p s => rfl, fun p s => rfl, ?_⟩
  intro line1 line2 h
  rw [getIntersection_eq] at h ⊢
  by_cases hc : |Pose2D.getCross (line1.«end» - line1.start)
      (line2.«end» - line2.start)| ≤ eps
  · rw [if_pos hc] at h
    simp at h
  · rw [if_neg hc]
    simp only [Pose2D.add_theta, Pose2D.mul_theta, Pose2D.sub_theta]
    ring

/-- Witness for the intersecting-flag hypothesis of C10: the diagonal
segments with start orientations 1 and 3 intersect, and the returned
pose carries theta = 1 + (16/32) * (3 - 1) = 2. -/
theorem pose2d_theta_componentwise_witness :
    (Line2D.getIntersection ⟨⟨0, 0, 1⟩, ⟨4, 4, 3⟩⟩ ⟨⟨0, 4, 0⟩, ⟨4, 0, 0⟩⟩).2.theta = 2 := by
  have h : (Line2D.getIntersection ⟨⟨0, 0, 1⟩, ⟨4, 4, 3⟩⟩ ⟨⟨0, 4, 0⟩, ⟨4, 0, 0⟩⟩).1 = true := by
    rw [getIntersection_eq]
    norm_num [Pose2D.getCross, eps]
  rw [pose2d_theta_componentwise.2.2.2.2.2.2.2.2.2 _ _ h]
  norm_num [Pose2D.getCross]

/-- C5: isPointOnLineWithinRange holds exactly when the point is
collinear (cross product below eps in absolute value) and, independently
on each axis, either the extent of the bounding box on that axis is
below eps and the point coordinate is within eps of the shared
coordinate (closed epsilon-equality on a degenerate axis), or the extent
is at least eps and the coordinate lies STRICTLY between min and max, so
exact endpoints fail on a non-degenerate axis. -/
theorem isPointOnLineWithinRange_characterization :
    ∀ (l : Line2D) (p : Pose2D),
      l.isPointOnLineWithinRange p = true ↔
        (|Pose2D.getCross (l.«end» - l.start) (p - l.start)| < eps ∧
         ((|max l.start.x l.«end».x - min l.start.x l.«end».x| < eps ∧
             |p.x - max l.start.x l.«end».x| ≤ eps) ∨
           (eps ≤ |max l.start.x l.«end».x - min l.start.x l.«end».x| ∧
             min l.start.x l.«end».x < p.x ∧ p.x < max l.start.x l.«end».x)) ∧
         ((|max l.start.y l.«end».y - min l.start.y l.«end».y| < eps ∧
             |p.y - max l.start.y l.«end».y| ≤ eps) ∨
           (eps ≤ |max l.start.y l.«end».y - min l.start.y l.«end».y| ∧
             min l.start.y l.«end».y < p.y ∧ p.y < max l.start.y l.«end».y))) := by
  have hif : ∀ (P : Prop) [inst : Decidable P] (r : Bool),
      (if P then false else r) = (!(decide P) && r) := by
    intro P inst r
    by_cases h : P <;> simp [h]
  have hif2 : ∀ (P : Prop) [inst : Decidable P] (r : Bool),
      (if P then r else false) = (decide P && r) := by
    intro P inst r
    by_cases h : P <;> simp [h]
  have hdist : ∀ (P : Prop) [inst : Decidable P] (a b r : Bool),
      (if P then (a && r) else (b && r)) = ((if P then a else b) && r) := by
    intro P inst a b r
    by_cases h : P <;> simp [h]
  intro l p
  unfold Line2D.isPointOnLineWithinRange Line2D.isPointOnLine
  simp only [hif, hdist, Bool.and_true, hif2, Bool.and_eq_true, decide_eq_true_eq]
  rw [iff_comm]
  simp only [← not_lt]
  by_cases hx : |max l.start.x l.«end».x - min l.start.x l.«end».x| < eps <;>
    by_cases hy : |max l.start.y l.«end».y - min l.start.y l.«end».y| < eps <;>
      simp [hx, hy] <;>
        intro hc <;>
          (try simp only [abs_sub_comm p.x (max l.start.x l.«end».x)]) <;>
            (try simp only [abs_sub_comm p.y (max l.start.y l.«end».y)]) <;>
              exact and_comm

/-- C4: getIntersectionWithinRange reports true exactly when
getIntersection reports true and the computed point additionally passes
isPointOnLineWithinRange against BOTH segments, and reports false
otherwise; in particular the crossing diagonal segments (0,0)-(4,4) and
(0,4)-(4,0) report true with the intersection point (2,2). -/
theorem getIntersectionWithinRange_spec :
    (∀ line1 line2 : Line2D,
      (Line2D.getIntersectionWithinRange line1 line2).1 =
        ((Line2D.getIntersection line1 line2).1 &&
         line1.isPointOnLineWithinRange (Line2D.getIntersection line1 line2).2 &&
         line2.isPointOnLineWithinRange (Line2D.getIntersection line1 line2).2)) ∧
    Line2D.getIntersectionWithinRange ⟨⟨0, 0, 0⟩, ⟨4, 4, 0⟩⟩ ⟨⟨0, 4, 0⟩, ⟨4, 0, 0⟩⟩ =
      (true, ⟨2, 2, 0⟩) := by
  constructor
  · intro line1 line2
    unfold Line2D.getIntersectionWithinRange
    cases hb : (Line2D.getIntersection line1 line2).1 <;> simp [hb]
  · have hI : Line2D.getIntersection ⟨⟨0, 0, 0⟩, ⟨4, 4, 0⟩⟩ ⟨⟨0, 4, 0⟩, ⟨4, 0, 0⟩⟩ =
        (true, ⟨2, 2, 0⟩) := by
      rw [getIntersection_eq]
      norm_num [Pose2D.getCross, eps, Prod.ext_iff, Pose2D.ext_iff]
    have h1 : (⟨⟨0, 0, 0⟩, ⟨4, 4, 0⟩⟩ : Line2D).isPointOnLineWithinRange ⟨2, 2, 0⟩ = true := by
      norm_num [Line2D.isPointOnLineWithinRange, Line2D.isPointOnLine, Pose2D.getCross,
        eps, min_def, max_def]
    have h2 : (⟨⟨0, 4, 0⟩, ⟨4, 0, 0⟩⟩ : Line2D).isPointOnLineWithinRange ⟨2, 2, 0⟩ = true := by
      norm_num [Line2D.isPointOnLineWithinRange, Line2D.isPointOnLine, Pose2D.getCross,
        eps, min_def, max_def]
    unfold Line2D.getIntersectionWithinRange
    rw [hI]
    simp [h1, h2]

/-- C6: getDistanceFromPointToLineWithinRange computes the perpendicular
foot h by the projection formula in the implicit-line coefficients; when
h passes isPointOnLineWithinRange the perpendicular distance
|a px + b py + c| / sqrt(a squared + b squared) is returned, and
otherwise the distance to the nearer of the two endpoints.  For the
vertical segment (1,0)-(1,5) the point (1,1) yields 0 (it lies on the
segment) and the point (1,10) yields 5 through the nearest-endpoint
fallback. -/
theorem getDistanceFromPointToLineWithinRange_spec :
    (∀ (pose : Pose2D) (line : Line2D),
      Line2D.getDistanceFromPointToLineWithinRange pose line =
        (let abc : ℚ × ℚ × ℚ :=
          if |line.start.x - line.«end».x| > eps then
            ((line.«end».y - line.start.y) / (line.«end».x - line.start.x),
             -1,
             (-(line.«end».y - line.start.y)) / (line.«end».x - line.start.x) * line.start.x
               + line.start.y)
          else
            (1, 0, -line.start.x)
        let a := abc.1
        let b := abc.2.1
        let c := abc.2.2
        let h : Pose2D :=
          ⟨(pose.x * (a ^ 2 + b ^ 2) - a * (a * pose.x + b * pose.y + c)) / (a ^ 2 + b ^ 2),
           (pose.y * (a ^ 2 + b ^ 2) - b * (a * pose.x + b * pose.y + c)) / (a ^ 2 + b ^ 2),
           0⟩
        if line.isPointOnLineWithinRange h then
          |a * pose.x + b * pose.y + c| / ratSqrt (a ^ 2 + b ^ 2)
        else
          min (Pose2D.getDistance pose line.start) (Pose2D.getDistance pose line.«end»))) ∧
    Line2D.getDistanceFromPointToLineWithinRange ⟨1, 1, 0⟩ ⟨⟨1, 0, 0⟩, ⟨1, 5, 0⟩⟩ = 0 ∧
    Line2D.getDistanceFromPointToLineWithinRange ⟨1, 10, 0⟩ ⟨⟨1, 0, 0⟩, ⟨1, 5, 0⟩⟩ = 5 := by
  refine ⟨?_, ?_, ?_⟩
  · intro pose line
    unfold Line2D.getDistanceFromPointToLineWithinRange
    simp only [pow_two]
  · norm_num [Line2D.getDistanceFromPointToLineWithinRange, Line2D.isPointOnLineWithinRange,
      Line2D.isPointOnLine, Pose2D.getCross, eps, min_def, max_def, ratSqrt_one]
  · norm_num [Line2D.getDistanceFromPointToLineWithinRange, Line2D.isPointOnLineWithinRange,
      Line2D.isPointOnLine, Pose2D.getCross, Pose2D.getDistance, Pose2D.magnitude,
      Pose2D.sqrMagnitude, eps, min_def, max_def, ratSqrt_25, ratSqrt_100]

end NutRos
